import Mathlib

/-!
Shallow embedding of the MOS 6502 CPU interpreter core (`src/cpu.rs`,
`src/opcodes.rs`) of the rust-nes-emulator repository, together with proofs
checking the natural-language specification against it.

Modelling conventions:
* `u8` / `u16` values are `Nat`s; wrapping arithmetic is explicit `% 256` /
  `% 65536`, exactly where the Rust uses `wrapping_add` / `wrapping_sub` or
  an `as u8` / `as u16` cast.
* The Rust memory is a fixed array `memory: [u8; 0xFFFF]` (65535 bytes,
  indices `0 ..= 0xFFFE`); it is embedded as a function `Nat → Nat` plus the
  length constant `MEMSIZE = 0xFFFF`.  An index `≥ MEMSIZE` makes the Rust
  index operation panic; fallible operations therefore return `Option`,
  `none` standing for a panic.
* The `bitflags` status register (a `u8`) is embedded as a structure with one
  `Bool` per bit; `CPUFlags.bits` / `CPUFlags.fromBits` are the exact
  correspondence with the `u8` (`bits()` / direct assignment of `.bits`).
  `insert` of a flag is the field set to `true`, `remove` is the field set to
  `false`, `contains` is the field itself.
-/

namespace NES6502

/-- Status register bits, mirroring `bitflags! CPUFlags` in `cpu.rs`
(bit 0 = CARRY, 1 = ZERO, 2 = INTERRUPT_DISABLE, 3 = DECIMAL_MODE,
4 = BREAK, 5 = BREAK2, 6 = OVERFLOW, 7 = NEGATIVE). -/
structure CPUFlags where
  carry : Bool
  zero : Bool
  interruptDisable : Bool
  decimalMode : Bool
  brk : Bool
  brk2 : Bool
  overflow : Bool
  negative : Bool
deriving DecidableEq, Repr

/-- The `u8` value of the flags register, as returned by `bits()`. -/
def CPUFlags.bits (p : CPUFlags) : Nat :=
  (cond p.carry 1 0) + (cond p.zero 2 0) + (cond p.interruptDisable 4 0) +
  (cond p.decimalMode 8 0) + (cond p.brk 16 0) + (cond p.brk2 32 0) +
  (cond p.overflow 64 0) + (cond p.negative 128 0)

/-- Conversion of a `u8` into the flags register (`from_bits_truncate`, and
direct assignment to `.bits`; all 8 bits are named flags, so no truncation
occurs). -/
def CPUFlags.fromBits (b : Nat) : CPUFlags :=
  ⟨b.testBit 0, b.testBit 1, b.testBit 2, b.testBit 3,
   b.testBit 4, b.testBit 5, b.testBit 6, b.testBit 7⟩

/-- `const STACK: u16 = 0x0100` -/
def STACK : Nat := 0x0100

/-- `const STACK_RESET: u8 = 0xfd` -/
def STACK_RESET : Nat := 0xfd

/-- Length of the Rust memory array `memory: [u8; 0xFFFF]`.
(Note: 0xFFFF = 65535, one byte short of the full 16-bit address space;
address `0xFFFF` itself is out of bounds.) -/
def MEMSIZE : Nat := 0xFFFF

/-- `enum AddressingMode` from `cpu.rs`. -/
inductive AddressingMode where
  | Immediate
  | ZeroPage
  | ZeroPage_X
  | ZeroPage_Y
  | Absolute
  | Absolute_X
  | Absolute_Y
  | Indirect_X
  | Indirect_Y
  | NoneAddressing
deriving DecidableEq, Repr

/-- `struct OpCode` from `opcodes.rs`. -/
structure OpCode where
  code : Nat
  mnemonic : String
  len : Nat
  cycles : Nat
  mode : AddressingMode
deriving Repr

/-- `CPU_OPCODES` from `opcodes.rs`: the fixed list of the 151 official
opcode descriptors `(code, mnemonic, len, cycles, mode)`. -/
def CPU_OPCODES : List OpCode := [
  OpCode.mk 0x69 "ADC" 2 2 AddressingMode.Immediate,
  OpCode.mk 0x65 "ADC" 2 3 AddressingMode.ZeroPage,
  OpCode.mk 0x75 "ADC" 2 4 AddressingMode.ZeroPage_X,
  OpCode.mk 0x6d "ADC" 3 4 AddressingMode.Absolute,
  OpCode.mk 0x7d "ADC" 3 4 AddressingMode.Absolute_X,
  OpCode.mk 0x79 "ADC" 3 4 AddressingMode.Absolute_Y,
  OpCode.mk 0x61 "ADC" 2 6 AddressingMode.Indirect_X,
  OpCode.mk 0x71 "ADC" 2 5 AddressingMode.Indirect_Y,
  OpCode.mk 0x29 "AND" 2 2 AddressingMode.Immediate,
  OpCode.mk 0x25 "AND" 2 3 AddressingMode.ZeroPage,
  OpCode.mk 0x35 "AND" 2 4 AddressingMode.ZeroPage_X,
  OpCode.mk 0x2d "AND" 3 4 AddressingMode.Absolute,
  OpCode.mk 0x3d "AND" 3 4 AddressingMode.Absolute_X,
  OpCode.mk 0x39 "AND" 3 4 AddressingMode.Absolute_Y,
  OpCode.mk 0x21 "AND" 2 6 AddressingMode.Indirect_X,
  OpCode.mk 0x31 "AND" 2 5 AddressingMode.Indirect_Y,
  OpCode.mk 0x0a "ASL" 1 2 AddressingMode.NoneAddressing,
  OpCode.mk 0x06 "ASL" 2 5 AddressingMode.ZeroPage,
  OpCode.mk 0x16 "ASL" 2 6 AddressingMode.ZeroPage_X,
  OpCode.mk 0x0e "ASL" 3 6 AddressingMode.Absolute,
  OpCode.mk 0x1e "ASL" 3 7 AddressingMode.Absolute_X,
  OpCode.mk 0x24 "BIT" 2 3 AddressingMode.ZeroPage,
  OpCode.mk 0x2c "BIT" 3 4 AddressingMode.Absolute,
  OpCode.mk 0x10 "BPL" 2 2 AddressingMode.NoneAddressing,
  OpCode.mk 0x30 "BMI" 2 2 AddressingMode.NoneAddressing,
  OpCode.mk 0x50 "BVC" 2 2 AddressingMode.NoneAddressing,
  OpCode.mk 0x70 "BVS" 2 2 AddressingMode.NoneAddressing,
  OpCode.mk 0x90 "BCC" 2 2 AddressingMode.NoneAddressing,
  OpCode.mk 0xb0 "BCS" 2 2 AddressingMode.NoneAddressing,
  OpCode.mk 0xd0 "BNE" 2 2 AddressingMode.NoneAddressing,
  OpCode.mk 0xf0 "BEQ" 2 2 AddressingMode.NoneAddressing,
  OpCode.mk 0x00 "BRK" 1 7 AddressingMode.NoneAddressing,
  OpCode.mk 0xc9 "CMP" 2 2 AddressingMode.Immediate,
  OpCode.mk 0xc5 "CMP" 2 3 AddressingMode.ZeroPage,
  OpCode.mk 0xd5 "CMP" 2 4 AddressingMode.ZeroPage_X,
  OpCode.mk 0xcd "CMP" 3 4 AddressingMode.Absolute,
  OpCode.mk 0xdd "CMP" 3 4 AddressingMode.Absolute_X,
  OpCode.mk 0xd9 "CMP" 3 4 AddressingMode.Absolute_Y,
  OpCode.mk 0xc1 "CMP" 2 6 AddressingMode.Indirect_X,
  OpCode.mk 0xd1 "CMP" 2 5 AddressingMode.Indirect_Y,
  OpCode.mk 0xe0 "CPX" 2 2 AddressingMode.Immediate,
  OpCode.mk 0xe4 "CPX" 2 3 AddressingMode.ZeroPage,
  OpCode.mk 0xec "CPX" 3 4 AddressingMode.Absolute,
  OpCode.mk 0xc0 "CPY" 2 2 AddressingMode.Immediate,
  OpCode.mk 0xc4 "CPY" 2 3 AddressingMode.ZeroPage,
  OpCode.mk 0xcc "CPY" 3 4 AddressingMode.Absolute,
  OpCode.mk 0xc6 "DEC" 2 5 AddressingMode.ZeroPage,
  OpCode.mk 0xd6 "DEC" 2 6 AddressingMode.ZeroPage_X,
  OpCode.mk 0xce "DEC" 3 6 AddressingMode.Absolute,
  OpCode.mk 0xde "DEC" 3 7 AddressingMode.Absolute_X,
  OpCode.mk 0x49 "EOR" 2 2 AddressingMode.Immediate,
  OpCode.mk 0x45 "EOR" 2 3 AddressingMode.ZeroPage,
  OpCode.mk 0x55 "EOR" 2 4 AddressingMode.ZeroPage_X,
  OpCode.mk 0x4d "EOR" 3 4 AddressingMode.Absolute,
  OpCode.mk 0x5d "EOR" 3 4 AddressingMode.Absolute_X,
  OpCode.mk 0x59 "EOR" 3 4 AddressingMode.Absolute_Y,
  OpCode.mk 0x41 "EOR" 2 6 AddressingMode.Indirect_X,
  OpCode.mk 0x51 "EOR" 2 5 AddressingMode.Indirect_Y,
  OpCode.mk 0x18 "CLC" 1 2 AddressingMode.NoneAddressing,
  OpCode.mk 0x38 "SEC" 1 2 AddressingMode.NoneAddressing,
  OpCode.mk 0x58 "CLI" 1 2 AddressingMode.NoneAddressing,
  OpCode.mk 0x78 "SEI" 1 2 AddressingMode.NoneAddressing,
  OpCode.mk 0xb8 "CLV" 1 2 AddressingMode.NoneAddressing,
  OpCode.mk 0xD8 "CLD" 1 2 AddressingMode.NoneAddressing,
  OpCode.mk 0xf8 "SED" 1 2 AddressingMode.NoneAddressing,
  OpCode.mk 0xe6 "INC" 2 5 AddressingMode.ZeroPage,
  OpCode.mk 0xf6 "INC" 2 6 AddressingMode.ZeroPage_X,
  OpCode.mk 0xee "INC" 3 6 AddressingMode.Absolute,
  OpCode.mk 0xfe "INC" 3 7 AddressingMode.Absolute_X,
  OpCode.mk 0x4c "JMP" 3 3 AddressingMode.NoneAddressing,
  OpCode.mk 0x6c "JMP" 3 5 AddressingMode.NoneAddressing,
  OpCode.mk 0x20 "JSR" 3 6 AddressingMode.NoneAddressing,
  OpCode.mk 0xa9 "LDA" 2 2 AddressingMode.Immediate,
  OpCode.mk 0xa5 "LDA" 2 3 AddressingMode.ZeroPage,
  OpCode.mk 0xb5 "LDA" 2 4 AddressingMode.ZeroPage_X,
  OpCode.mk 0xad "LDA" 3 4 AddressingMode.Absolute,
  OpCode.mk 0xbd "LDA" 3 4 AddressingMode.Absolute_X,
  OpCode.mk 0xb9 "LDA" 3 4 AddressingMode.Absolute_Y,
  OpCode.mk 0xa1 "LDA" 2 6 AddressingMode.Indirect_X,
  OpCode.mk 0xb1 "LDA" 2 5 AddressingMode.Indirect_Y,
  OpCode.mk 0xa2 "LDX" 2 2 AddressingMode.Immediate,
  OpCode.mk 0xa6 "LDX" 2 3 AddressingMode.ZeroPage,
  OpCode.mk 0xb6 "LDX" 2 4 AddressingMode.ZeroPage_Y,
  OpCode.mk 0xae "LDX" 3 4 AddressingMode.Absolute,
  OpCode.mk 0xbe "LDX" 3 4 AddressingMode.Absolute_Y,
  OpCode.mk 0xa0 "LDY" 2 2 AddressingMode.Immediate,
  OpCode.mk 0xa4 "LDY" 2 3 AddressingMode.ZeroPage,
  OpCode.mk 0xb4 "LDY" 2 4 AddressingMode.ZeroPage_X,
  OpCode.mk 0xac "LDY" 3 4 AddressingMode.Absolute,
  OpCode.mk 0xbc "LDY" 3 4 AddressingMode.Absolute_X,
  OpCode.mk 0x4a "LSR" 1 2 AddressingMode.NoneAddressing,
  OpCode.mk 0x46 "LSR" 2 5 AddressingMode.ZeroPage,
  OpCode.mk 0x56 "LSR" 2 6 AddressingMode.ZeroPage_X,
  OpCode.mk 0x4e "LSR" 3 6 AddressingMode.Absolute,
  OpCode.mk 0x5e "LSR" 3 7 AddressingMode.Absolute_X,
  OpCode.mk 0xea "NOP" 1 2 AddressingMode.NoneAddressing,
  OpCode.mk 0x09 "ORA" 2 2 AddressingMode.Immediate,
  OpCode.mk 0x05 "ORA" 2 3 AddressingMode.ZeroPage,
  OpCode.mk 0x15 "ORA" 2 4 AddressingMode.ZeroPage_X,
  OpCode.mk 0x0d "ORA" 3 4 AddressingMode.Absolute,
  OpCode.mk 0x1d "ORA" 3 4 AddressingMode.Absolute_X,
  OpCode.mk 0x19 "ORA" 3 4 AddressingMode.Absolute_Y,
  OpCode.mk 0x01 "ORA" 2 6 AddressingMode.Indirect_X,
  OpCode.mk 0x11 "ORA" 2 5 AddressingMode.Indirect_Y,
  OpCode.mk 0xaa "TAX" 1 2 AddressingMode.NoneAddressing,
  OpCode.mk 0x8a "TXA" 1 2 AddressingMode.NoneAddressing,
  OpCode.mk 0xca "DEX" 1 2 AddressingMode.NoneAddressing,
  OpCode.mk 0xe8 "INX" 1 2 AddressingMode.NoneAddressing,
  OpCode.mk 0xa8 "TAY" 1 2 AddressingMode.NoneAddressing,
  OpCode.mk 0x98 "TYA" 1 2 AddressingMode.NoneAddressing,
  OpCode.mk 0x88 "DEY" 1 2 AddressingMode.NoneAddressing,
  OpCode.mk 0xc8 "INY" 1 2 AddressingMode.NoneAddressing,
  OpCode.mk 0x2a "ROL" 1 2 AddressingMode.NoneAddressing,
  OpCode.mk 0x26 "ROL" 2 5 AddressingMode.ZeroPage,
  OpCode.mk 0x36 "ROL" 2 6 AddressingMode.ZeroPage_X,
  OpCode.mk 0x2e "ROL" 3 6 AddressingMode.Absolute,
  OpCode.mk 0x3e "ROL" 3 7 AddressingMode.Absolute_X,
  OpCode.mk 0x6a "ROR" 1 2 AddressingMode.NoneAddressing,
  OpCode.mk 0x66 "ROR" 2 5 AddressingMode.ZeroPage,
  OpCode.mk 0x76 "ROR" 2 6 AddressingMode.ZeroPage_X,
  OpCode.mk 0x6e "ROR" 3 6 AddressingMode.Absolute,
  OpCode.mk 0x7e "ROR" 3 7 AddressingMode.Absolute_X,
  OpCode.mk 0x40 "RTI" 1 6 AddressingMode.NoneAddressing,
  OpCode.mk 0x60 "RTS" 1 6 AddressingMode.NoneAddressing,
  OpCode.mk 0xe9 "SBC" 2 2 AddressingMode.Immediate,
  OpCode.mk 0xe5 "SBC" 2 3 AddressingMode.ZeroPage,
  OpCode.mk 0xf5 "SBC" 2 4 AddressingMode.ZeroPage_X,
  OpCode.mk 0xed "SBC" 3 4 AddressingMode.Absolute,
  OpCode.mk 0xfd "SBC" 3 4 AddressingMode.Absolute_X,
  OpCode.mk 0xf9 "SBC" 3 4 AddressingMode.Absolute_Y,
  OpCode.mk 0xe1 "SBC" 2 6 AddressingMode.Indirect_X,
  OpCode.mk 0xf1 "SBC" 2 5 AddressingMode.Indirect_Y,
  OpCode.mk 0x85 "STA" 2 3 AddressingMode.ZeroPage,
  OpCode.mk 0x95 "STA" 2 4 AddressingMode.ZeroPage_X,
  OpCode.mk 0x8d "STA" 3 4 AddressingMode.Absolute,
  OpCode.mk 0x9d "STA" 3 5 AddressingMode.Absolute_X,
  OpCode.mk 0x99 "STA" 3 5 AddressingMode.Absolute_Y,
  OpCode.mk 0x81 "STA" 2 6 AddressingMode.Indirect_X,
  OpCode.mk 0x91 "STA" 2 6 AddressingMode.Indirect_Y,
  OpCode.mk 0x9a "TXS" 1 2 AddressingMode.NoneAddressing,
  OpCode.mk 0xba "TSX" 1 2 AddressingMode.NoneAddressing,
  OpCode.mk 0x48 "PHA" 1 3 AddressingMode.NoneAddressing,
  OpCode.mk 0x68 "PLA" 1 4 AddressingMode.NoneAddressing,
  OpCode.mk 0x08 "PHP" 1 3 AddressingMode.NoneAddressing,
  OpCode.mk 0x28 "PLP" 1 4 AddressingMode.NoneAddressing,
  OpCode.mk 0x86 "STX" 2 3 AddressingMode.ZeroPage,
  OpCode.mk 0x96 "STX" 2 4 AddressingMode.ZeroPage_Y,
  OpCode.mk 0x8e "STX" 3 4 AddressingMode.Absolute,
  OpCode.mk 0x84 "STY" 2 3 AddressingMode.ZeroPage,
  OpCode.mk 0x94 "STY" 2 4 AddressingMode.ZeroPage_X,
  OpCode.mk 0x8c "STY" 3 4 AddressingMode.Absolute
]

/-- `OPCODES_MAP`: lookup of an opcode descriptor by opcode byte (the
source builds a `HashMap` keyed by `code`; the codes in `CPU_OPCODES` are
pairwise distinct, so list lookup agrees with the map). -/
def OPCODES_MAP (code : Nat) : Option OpCode :=
  CPU_OPCODES.find? (fun op => op.code == code)

/-- `struct CPU` from `cpu.rs`: the register file plus the flat memory
array (embedded as a function on indices `< MEMSIZE`). -/
structure CPU where
  register_a : Nat
  register_x : Nat
  register_y : Nat
  status : CPUFlags
  program_counter : Nat
  stack_pointer : Nat
  memory : Nat → Nat

/-- `Mem::mem_read` for `CPU`: `self.memory[addr as usize]`.  An address at
or beyond the array length 0xFFFF makes the Rust indexing panic (`none`). -/
def CPU.mem_read (s : CPU) (addr : Nat) : Option Nat :=
  if addr < MEMSIZE then some (s.memory addr) else none

/-- `Mem::mem_write` for `CPU`: `self.memory[addr as usize] = data`. -/
def CPU.mem_write (s : CPU) (addr : Nat) (data : Nat) : Option CPU :=
  if addr < MEMSIZE then
    some { s with memory := fun a => if a = addr then data else s.memory a }
  else none

/-- `Mem::mem_read_u16`: `lo = mem_read(pos); hi = mem_read(pos + 1);
(hi << 8) | lo`.  (For `pos = 0xFFFF` the `lo` read is already out of
bounds, so the `u16` overflow of `pos + 1` is unreachable.) -/
def CPU.mem_read_u16 (s : CPU) (pos : Nat) : Option Nat := do
  let lo ← s.mem_read pos
  let hi ← s.mem_read (pos + 1)
  pure (Nat.lor (Nat.shiftLeft hi 8) lo)

/-- `Mem::mem_write_u16`: `hi = data >> 8; lo = data & 0xff;
mem_write(pos, lo); mem_write(pos + 1, hi)`. -/
def CPU.mem_write_u16 (s : CPU) (pos : Nat) (data : Nat) : Option CPU := do
  let hi := Nat.shiftRight data 8
  let lo := Nat.land data 0xff
  let s1 ← s.mem_write pos lo
  s1.mem_write (pos + 1) hi

/-- `Stack::stack_pop` for `CPU`: increment SP (wrapping, `u8`), then read
`STACK + SP`.  Returns the byte together with the new state. -/
def CPU.stack_pop (s : CPU) : Option (Nat × CPU) :=
  let s1 : CPU := { s with stack_pointer := (s.stack_pointer + 1) % 256 }
  (s1.mem_read (STACK + s1.stack_pointer)).map fun v => (v, s1)

/-- `Stack::stack_push` for `CPU`: write `data` at `STACK + SP`, then
decrement SP (wrapping, `u8`; `wrapping_sub 1` is `+ 255 (mod 256)`). -/
def CPU.stack_push (s : CPU) (data : Nat) : Option CPU :=
  (s.mem_write (STACK + s.stack_pointer) data).map fun s1 =>
    { s1 with stack_pointer := (s1.stack_pointer + 255) % 256 }

/-- `Stack::stack_pop_u16`: pop `lo`, pop `hi`, return `hi << 8 | lo`. -/
def CPU.stack_pop_u16 (s : CPU) : Option (Nat × CPU) := do
  let (lo, s1) ← s.stack_pop
  let (hi, s2) ← s1.stack_pop
  pure (Nat.lor (Nat.shiftLeft hi 8) lo, s2)

/-- `Stack::stack_push_u16`: push `hi = data >> 8` first, then
`lo = data & 0xff`. -/
def CPU.stack_push_u16 (s : CPU) (data : Nat) : Option CPU := do
  let hi := Nat.shiftRight data 8
  let lo := Nat.land data 0xff
  let s1 ← s.stack_push hi
  s1.stack_push lo

/-- `get_operand_address`: addressing-mode interpretation.  `wrapping_add`
on `u8` is `% 256`, on `u16` is `% 65536`; `(hi as u16) << 8 | lo` is
`Nat.lor (Nat.shiftLeft hi 8) lo`.  `NoneAddressing` panics (`none`). -/
def CPU.get_operand_address (s : CPU) (mode : AddressingMode) : Option Nat :=
  match mode with
  | AddressingMode.Immediate => some s.program_counter
  | AddressingMode.ZeroPage => s.mem_read s.program_counter
  | AddressingMode.ZeroPage_X =>
      (s.mem_read s.program_counter).map fun pos => (pos + s.register_x) % 256
  | AddressingMode.ZeroPage_Y =>
      (s.mem_read s.program_counter).map fun pos => (pos + s.register_y) % 256
  | AddressingMode.Absolute => s.mem_read_u16 s.program_counter
  | AddressingMode.Absolute_X =>
      (s.mem_read_u16 s.program_counter).map fun base => (base + s.register_x) % 65536
  | AddressingMode.Absolute_Y =>
      (s.mem_read_u16 s.program_counter).map fun base => (base + s.register_y) % 65536
  | AddressingMode.Indirect_X => do
      let base ← s.mem_read s.program_counter
      let ptr := (base + s.register_x) % 256
      let lo ← s.mem_read ptr
      let hi ← s.mem_read ((ptr + 1) % 256)
      pure (Nat.lor (Nat.shiftLeft hi 8) lo)
  | AddressingMode.Indirect_Y => do
      let base ← s.mem_read s.program_counter
      let lo ← s.mem_read base
      let hi ← s.mem_read ((base + 1) % 256)
      let deref_base := Nat.lor (Nat.shiftLeft hi 8) lo
      pure ((deref_base + s.register_y) % 65536)
  | AddressingMode.NoneAddressing => none

/-- `update_zero_and_negative_flags`: Z iff `result == 0`, N iff
`result & 0b1000_0000 != 0`. -/
def CPU.update_zero_and_negative_flags (s : CPU) (result : Nat) : CPU :=
  let s1 := if result = 0
    then { s with status := { s.status with zero := true } }
    else { s with status := { s.status with zero := false } }
  if Nat.land result 128 ≠ 0
    then { s1 with status := { s1.status with negative := true } }
    else { s1 with status := { s1.status with negative := false } }

/-- `set_register_a` -/
def CPU.set_register_a (s : CPU) (data : Nat) : CPU :=
  ({ s with register_a := data } : CPU).update_zero_and_negative_flags data

/-- `set_register_x` -/
def CPU.set_register_x (s : CPU) (data : Nat) : CPU :=
  ({ s with register_x := data } : CPU).update_zero_and_negative_flags data

/-- `set_register_y` -/
def CPU.set_register_y (s : CPU) (data : Nat) : CPU :=
  ({ s with register_y := data } : CPU).update_zero_and_negative_flags data

/-- `sec`: `status.insert(CPUFlags::CARRY)` -/
def CPU.sec (s : CPU) : CPU := { s with status := { s.status with carry := true } }

/-- `clc`: `status.remove(CPUFlags::CARRY)` -/
def CPU.clc (s : CPU) : CPU := { s with status := { s.status with carry := false } }

/-- `sed`: `status.insert(CPUFlags::DECIMAL_MODE)` -/
def CPU.sed (s : CPU) : CPU := { s with status := { s.status with decimalMode := true } }

/-- `cld`: `status.remove(CPUFlags::DECIMAL_MODE)` -/
def CPU.cld (s : CPU) : CPU := { s with status := { s.status with decimalMode := false } }

/-- `sei`: `status.insert(CPUFlags::INTERRUPT_DISABLE)` -/
def CPU.sei (s : CPU) : CPU :=
  { s with status := { s.status with interruptDisable := true } }

/-- `cli`: `status.remove(CPUFlags::INTERRUPT_DISABLE)` -/
def CPU.cli (s : CPU) : CPU :=
  { s with status := { s.status with interruptDisable := false } }

/-- `clv`: `status.remove(CPUFlags::OVERFLOW)` -/
def CPU.clv (s : CPU) : CPU := { s with status := { s.status with overflow := false } }

/-- `add_to_register_a`: `sum = A + data + C` (wide), carry iff
`sum > 0xff`, `result = sum as u8`, overflow iff
`(data ^ result) & (result ^ A) & 0x80 != 0` (checked against the OLD A),
then `set_register_a(result)`. -/
def CPU.add_to_register_a (s : CPU) (data : Nat) : CPU :=
  let sum := s.register_a + data + (if s.status.carry then 1 else 0)
  let s1 := if sum > 0xff then s.sec else s.clc
  let result := sum % 256
  let s2 := if Nat.land (Nat.land (Nat.xor data result) (Nat.xor result s1.register_a)) 0x80 ≠ 0
    then { s1 with status := { s1.status with overflow := true } }
    else s1.clv
  s2.set_register_a result

/-- `adc` -/
def CPU.adc (s : CPU) (mode : AddressingMode) : Option CPU := do
  let addr ← s.get_operand_address mode
  let data ← s.mem_read addr
  pure (s.add_to_register_a data)

/-- `and` (named `and_a` here; `and` clashes with `Bool.and` conventions) -/
def CPU.and_a (s : CPU) (mode : AddressingMode) : Option CPU := do
  let addr ← s.get_operand_address mode
  let data ← s.mem_read addr
  pure (s.set_register_a (Nat.land data s.register_a))

/-- `asl_accumulator` -/
def CPU.asl_accumulator (s : CPU) : CPU :=
  let data := s.register_a
  let s1 := if Nat.shiftRight data 7 = 1 then s.sec else s.clc
  s1.set_register_a ((Nat.shiftLeft data 1) % 256)

/-- `asl` (memory form; the `u8` shift `data << 1` wraps, i.e. `% 256`) -/
def CPU.asl (s : CPU) (mode : AddressingMode) : Option CPU := do
  let addr ← s.get_operand_address mode
  let data ← s.mem_read addr
  let s1 := if Nat.shiftRight data 7 = 1 then s.sec else s.clc
  let data1 := (Nat.shiftLeft data 1) % 256
  let s2 ← s1.mem_write addr data1
  pure (s2.update_zero_and_negative_flags data1)

/-- `jump as i8 ... as u16`: sign extension of a byte to 16 bits. -/
def sign_extend_u8_u16 (b : Nat) : Nat := if b < 128 then b else 0xFF00 + b

/-- `branch(condition)`: when taken, read the displacement at PC and set
`PC ← PC.wrapping_add(1).wrapping_add(jump as u16)` (`u16` wrap). -/
def CPU.branch (s : CPU) (condition : Bool) : Option CPU :=
  if condition then
    (s.mem_read s.program_counter).map fun jump =>
      { s with program_counter :=
          (s.program_counter + 1 + sign_extend_u8_u16 jump) % 65536 }
  else some s

/-- `bit` -/
def CPU.bit (s : CPU) (mode : AddressingMode) : Option CPU := do
  let addr ← s.get_operand_address mode
  let data ← s.mem_read addr
  let s1 := if Nat.land s.register_a data = 0
    then { s with status := { s.status with zero := true } }
    else { s with status := { s.status with zero := false } }
  let s2 := { s1 with status := { s1.status with negative := decide (Nat.land data 128 > 0) } }
  pure { s2 with status := { s2.status with overflow := decide (Nat.land data 64 > 0) } }

/-- `compare(mode, compare_with)` (shared by CMP/CPX/CPY): C set iff
`data <= compare_with`; update-NZ on `compare_with.wrapping_sub(data)`
(written `(compare_with + 256 - data % 256) % 256`, the `u8` wrapping
subtraction). -/
def CPU.compare (s : CPU) (mode : AddressingMode) (compare_with : Nat) : Option CPU := do
  let addr ← s.get_operand_address mode
  let data ← s.mem_read addr
  let s1 := if data ≤ compare_with then s.sec else s.clc
  pure (s1.update_zero_and_negative_flags ((compare_with + 256 - data % 256) % 256))

/-- `dec` (memory; `wrapping_sub(1)` on `u8` is `+ 255 (mod 256)`) -/
def CPU.dec (s : CPU) (mode : AddressingMode) : Option CPU := do
  let addr ← s.get_operand_address mode
  let data ← s.mem_read addr
  let data1 := (data + 255) % 256
  let s1 ← s.mem_write addr data1
  pure (s1.update_zero_and_negative_flags data1)

/-- `dex` -/
def CPU.dex (s : CPU) : CPU :=
  let x := (s.register_x + 255) % 256
  ({ s with register_x := x } : CPU).update_zero_and_negative_flags x

/-- `dey` -/
def CPU.dey (s : CPU) : CPU :=
  let y := (s.register_y + 255) % 256
  ({ s with register_y := y } : CPU).update_zero_and_negative_flags y

/-- `eor` -/
def CPU.eor (s : CPU) (mode : AddressingMode) : Option CPU := do
  let addr ← s.get_operand_address mode
  let data ← s.mem_read addr
  pure (s.set_register_a (Nat.xor data s.register_a))

/-- `inc` (memory) -/
def CPU.inc (s : CPU) (mode : AddressingMode) : Option CPU := do
  let addr ← s.get_operand_address mode
  let data ← s.mem_read addr
  let data1 := (data + 1) % 256
  let s1 ← s.mem_write addr data1
  pure (s1.update_zero_and_negative_flags data1)

/-- `inx` -/
def CPU.inx (s : CPU) : CPU :=
  let x := (s.register_x + 1) % 256
  ({ s with register_x := x } : CPU).update_zero_and_negative_flags x

/-- `iny` -/
def CPU.iny (s : CPU) : CPU :=
  let y := (s.register_y + 1) % 256
  ({ s with register_y := y } : CPU).update_zero_and_negative_flags y

/-- `jsr`: push `PC + 2 - 1` (`u16` arithmetic), then `PC ← read16(PC)`. -/
def CPU.jsr (s : CPU) : Option CPU := do
  let s1 ← s.stack_push_u16 ((s.program_counter + 2 - 1) % 65536)
  let target_address ← s1.mem_read_u16 s1.program_counter
  pure { s1 with program_counter := target_address }

/-- `lda` -/
def CPU.lda (s : CPU) (mode : AddressingMode) : Option CPU := do
  let addr ← s.get_operand_address mode
  let data ← s.mem_read addr
  pure (s.set_register_a data)

/-- `ldx` -/
def CPU.ldx (s : CPU) (mode : AddressingMode) : Option CPU := do
  let addr ← s.get_operand_address mode
  let data ← s.mem_read addr
  pure (s.set_register_x data)

/-- `ldy` -/
def CPU.ldy (s : CPU) (mode : AddressingMode) : Option CPU := do
  let addr ← s.get_operand_address mode
  let data ← s.mem_read addr
  pure (s.set_register_y data)

/-- `lsr_accumulator` -/
def CPU.lsr_accumulator (s : CPU) : CPU :=
  let data := s.register_a
  let s1 := if Nat.land data 1 = 1 then s.sec else s.clc
  s1.set_register_a (Nat.shiftRight data 1)

/-- `lsr` (memory form) -/
def CPU.lsr (s : CPU) (mode : AddressingMode) : Option CPU := do
  let addr ← s.get_operand_address mode
  let data ← s.mem_read addr
  let s1 := if Nat.land data 1 = 1 then s.sec else s.clc
  let data1 := Nat.shiftRight data 1
  let s2 ← s1.mem_write addr data1
  pure (s2.update_zero_and_negative_flags data1)

/-- `ora` -/
def CPU.ora (s : CPU) (mode : AddressingMode) : Option CPU := do
  let addr ← s.get_operand_address mode
  let data ← s.mem_read addr
  pure (s.set_register_a (Nat.lor data s.register_a))

/-- `pha` -/
def CPU.pha (s : CPU) : Option CPU := s.stack_push s.register_a

/-- `php`: clone the live flags, insert BREAK and BREAK2 into the clone,
push the clone's `bits()`; the live status register itself is untouched. -/
def CPU.php (s : CPU) : Option CPU :=
  let flags := { s.status with brk := true, brk2 := true }
  s.stack_push flags.bits

/-- `pla` -/
def CPU.pla (s : CPU) : Option CPU := do
  let (data, s1) ← s.stack_pop
  pure (s1.set_register_a data)

/-- `plp`: `status.bits = pop()`, then remove BREAK, insert BREAK2. -/
def CPU.plp (s : CPU) : Option CPU := do
  let (data, s1) ← s.stack_pop
  let st := CPUFlags.fromBits data
  pure { s1 with status := { st with brk := false, brk2 := true } }

/-- `rol` (memory form) -/
def CPU.rol (s : CPU) (mode : AddressingMode) : Option CPU := do
  let addr ← s.get_operand_address mode
  let data ← s.mem_read addr
  let old_carry := s.status.carry
  let s1 := if Nat.shiftRight data 7 = 1 then s.sec else s.clc
  let data1 := (Nat.shiftLeft data 1) % 256
  let data2 := if old_carry then Nat.lor data1 1 else data1
  let s2 ← s1.mem_write addr data2
  pure (s2.update_zero_and_negative_flags data2)

/-- `rol_accumulator` -/
def CPU.rol_accumulator (s : CPU) : CPU :=
  let data := s.register_a
  let old_carry := s.status.carry
  let s1 := if Nat.shiftRight data 7 = 1 then s.sec else s.clc
  let data1 := (Nat.shiftLeft data 1) % 256
  let data2 := if old_carry then Nat.lor data1 1 else data1
  s1.set_register_a data2

/-- `ror` (memory form) -/
def CPU.ror (s : CPU) (mode : AddressingMode) : Option CPU := do
  let addr ← s.get_operand_address mode
  let data ← s.mem_read addr
  let old_carry := s.status.carry
  let s1 := if Nat.land data 1 = 1 then s.sec else s.clc
  let data1 := Nat.shiftRight data 1
  let data2 := if old_carry then Nat.lor data1 128 else data1
  let s2 ← s1.mem_write addr data2
  pure (s2.update_zero_and_negative_flags data2)

/-- `ror_accumulator` -/
def CPU.ror_accumulator (s : CPU) : CPU :=
  let data := s.register_a
  let old_carry := s.status.carry
  let s1 := if Nat.land data 1 = 1 then s.sec else s.clc
  let data1 := Nat.shiftRight data 1
  let data2 := if old_carry then Nat.lor data1 128 else data1
  s1.set_register_a data2

/-- `rti`: pop the flags (B removed, U inserted), then `PC ← pop16()`. -/
def CPU.rti (s : CPU) : Option CPU := do
  let (data, s1) ← s.stack_pop
  let st := CPUFlags.fromBits data
  let s2 := { s1 with status := { st with brk := false, brk2 := true } }
  let (pc, s3) ← s2.stack_pop_u16
  pure { s3 with program_counter := pc }

/-- `rts`: `PC ← pop16() + 1` (`u16` arithmetic). -/
def CPU.rts (s : CPU) : Option CPU := do
  let (pc, s1) ← s.stack_pop_u16
  pure { s1 with program_counter := (pc + 1) % 65536 }

/-- The operand transformation of `sbc`:
`((data as i8).wrapping_neg().wrapping_sub(1)) as u8`, i.e. two's-complement
negation followed by a wrapping decrement, all casts bit-identical:
`((256 - data % 256) % 256 + 255) % 256` (which equals `255 - data` for
`data < 256`, the bitwise complement). -/
def sbc_operand (data : Nat) : Nat := ((256 - data % 256) % 256 + 255) % 256

/-- `sbc`: `add_to_register_a` of the transformed operand. -/
def CPU.sbc (s : CPU) (mode : AddressingMode) : Option CPU := do
  let addr ← s.get_operand_address mode
  let data ← s.mem_read addr
  pure (s.add_to_register_a (sbc_operand data))

/-- The data-level core of `sbc`, after the operand fetch (used to state
the ADC/SBC round-trip law at the register level). -/
def CPU.sbc_data (s : CPU) (data : Nat) : CPU :=
  s.add_to_register_a (sbc_operand data)

/-- `sta` -/
def CPU.sta (s : CPU) (mode : AddressingMode) : Option CPU := do
  let addr ← s.get_operand_address mode
  s.mem_write addr s.register_a

/-- `stx` -/
def CPU.stx (s : CPU) (mode : AddressingMode) : Option CPU := do
  let addr ← s.get_operand_address mode
  s.mem_write addr s.register_x

/-- `sty` -/
def CPU.sty (s : CPU) (mode : AddressingMode) : Option CPU := do
  let addr ← s.get_operand_address mode
  s.mem_write addr s.register_y

/-- `tax` -/
def CPU.tax (s : CPU) : CPU :=
  ({ s with register_x := s.register_a } : CPU).update_zero_and_negative_flags s.register_a

/-- `tay` -/
def CPU.tay (s : CPU) : CPU :=
  ({ s with register_y := s.register_a } : CPU).update_zero_and_negative_flags s.register_a

/-- `tsx` -/
def CPU.tsx (s : CPU) : CPU :=
  ({ s with register_x := s.stack_pointer } : CPU).update_zero_and_negative_flags s.stack_pointer

/-- `txa` -/
def CPU.txa (s : CPU) : CPU :=
  ({ s with register_a := s.register_x } : CPU).update_zero_and_negative_flags s.register_x

/-- `txs` (no flag update) -/
def CPU.txs (s : CPU) : CPU := { s with stack_pointer := s.register_x }

/-- `tya` -/
def CPU.tya (s : CPU) : CPU :=
  ({ s with register_a := s.register_y } : CPU).update_zero_and_negative_flags s.register_y

/-- `CPU::new()`: zeroed registers and memory, `P = 0b100100`,
`S = STACK_RESET`. -/
def CPU.new : CPU :=
  { register_a := 0, register_x := 0, register_y := 0,
    status := CPUFlags.fromBits 0b100100,
    program_counter := 0, stack_pointer := STACK_RESET,
    memory := fun _ => 0 }

/-- The body of the `0x6C` (JMP indirect) arm of `run_with_callback`, as a
function of the fetched operand pointer `mem_address`:
if `mem_address & 0x00FF == 0x00FF` then
`lo = mem_read(mem_address); hi = mem_read(mem_address & 0x00FF)` and the
target is `(hi as u16) << 8 | lo`, otherwise `mem_read_u16(mem_address)`.
(Note the source reads `hi` from `mem_address & 0x00FF`, which under the
guard is always the constant address `0x00FF`.) -/
def CPU.jmp_indirect_target (s : CPU) (mem_address : Nat) : Option Nat :=
  if Nat.land mem_address 0x00FF = 0x00FF then do
    let lo ← s.mem_read mem_address
    let hi ← s.mem_read (Nat.land mem_address 0x00FF)
    pure (Nat.lor (Nat.shiftLeft hi 8) lo)
  else
    s.mem_read_u16 mem_address

/-- The `match code` arms of `run_with_callback` for every opcode except
`0x00` (BRK, which returns from the loop and is handled in `CPU.step`).
The `_ => todo!()` default is `none`; since the dispatch codes coincide with
the `CPU_OPCODES` table it is unreachable through `CPU.step`. -/
def execArm (s : CPU) (code : Nat) (mode : AddressingMode) : Option CPU :=
  match code with
  | 0x69 | 0x65 | 0x75 | 0x6D | 0x7D | 0x79 | 0x61 | 0x71 => s.adc mode
  | 0x29 | 0x25 | 0x35 | 0x2D | 0x3D | 0x39 | 0x21 | 0x31 => s.and_a mode
  | 0x0A => some s.asl_accumulator
  | 0x06 | 0x16 | 0x0E | 0x1E => s.asl mode
  | 0x90 => s.branch (! s.status.carry)
  | 0xB0 => s.branch s.status.carry
  | 0xF0 => s.branch s.status.zero
  | 0x24 | 0x2C => s.bit mode
  | 0x30 => s.branch s.status.negative
  | 0xD0 => s.branch (! s.status.zero)
  | 0x10 => s.branch (! s.status.negative)
  | 0x50 => s.branch (! s.status.overflow)
  | 0x70 => s.branch s.status.overflow
  | 0x18 => some s.clc
  | 0xD8 => some s.cld
  | 0x58 => some s.cli
  | 0xB8 => some s.clv
  | 0xC9 | 0xC5 | 0xD5 | 0xCD | 0xDD | 0xD9 | 0xC1 | 0xD1 => s.compare mode s.register_a
  | 0xE0 | 0xE4 | 0xEC => s.compare mode s.register_x
  | 0xC0 | 0xC4 | 0xCC => s.compare mode s.register_y
  | 0xC6 | 0xD6 | 0xCE | 0xDE => s.dec mode
  | 0xCA => some s.dex
  | 0x88 => some s.dey
  | 0x49 | 0x45 | 0x55 | 0x4D | 0x5D | 0x59 | 0x41 | 0x51 => s.eor mode
  | 0xE6 | 0xF6 | 0xEE | 0xFE => s.inc mode
  | 0xE8 => some s.inx
  | 0xC8 => some s.iny
  | 0x4C =>
      (s.mem_read_u16 s.program_counter).map fun mem_address =>
        { s with program_counter := mem_address }
  | 0x6C => do
      let mem_address ← s.mem_read_u16 s.program_counter
      let indirect_ref ← s.jmp_indirect_target mem_address
      pure { s with program_counter := indirect_ref }
  | 0x20 => s.jsr
  | 0xA9 | 0xA5 | 0xB5 | 0xAD | 0xBD | 0xB9 | 0xA1 | 0xB1 => s.lda mode
  | 0xA2 | 0xA6 | 0xB6 | 0xAE | 0xBE => s.ldx mode
  | 0xA0 | 0xA4 | 0xB4 | 0xAC | 0xBC => s.ldy mode
  | 0x4A => some s.lsr_accumulator
  | 0x46 | 0x56 | 0x4E | 0x5E => s.lsr mode
  | 0xEA => some s
  | 0x09 | 0x05 | 0x15 | 0x0D | 0x1D | 0x19 | 0x01 | 0x11 => s.ora mode
  | 0x48 => s.pha
  | 0x08 => s.php
  | 0x68 => s.pla
  | 0x28 => s.plp
  | 0x2A => some s.rol_accumulator
  | 0x26 | 0x36 | 0x2E | 0x3E => s.rol mode
  | 0x6A => some s.ror_accumulator
  | 0x66 | 0x76 | 0x6E | 0x7E => s.ror mode
  | 0x40 => s.rti
  | 0x60 => s.rts
  | 0xE9 | 0xE5 | 0xF5 | 0xED | 0xFD | 0xF9 | 0xE1 | 0xF1 => s.sbc mode
  | 0x38 => some s.sec
  | 0xF8 => some s.sed
  | 0x78 => some s.sei
  | 0x85 | 0x95 | 0x8D | 0x9D | 0x99 | 0x81 | 0x91 => s.sta mode
  | 0x86 | 0x96 | 0x8E => s.stx mode
  | 0x84 | 0x94 | 0x8C => s.sty mode
  | 0xAA => some s.tax
  | 0xA8 => some s.tay
  | 0xBA => some s.tsx
  | 0x8A => some s.txa
  | 0x9A => some s.txs
  | 0x98 => some s.tya
  | _ => none

/-- Outcome of one iteration of the `run_with_callback` loop:
continue with a new state, or (on BRK) return from the loop. -/
inductive StepResult where
  | next (s : CPU)
  | halt (s : CPU)

/-- One iteration of the fetch-execute loop of `run_with_callback`, starting
at the moment of the opcode fetch (i.e. after the callback):
fetch the opcode, advance PC by 1, remember it as `program_counter_state`,
look up the descriptor (panicking on a miss), dispatch — a fetched `0x00`
makes the loop `return` — and afterwards advance PC by `len - 1` when the
handler left PC equal to `program_counter_state` (the `+=` on `u16` wraps,
hence `% 65536`). -/
def CPU.step (s0 : CPU) : Option StepResult :=
  (s0.mem_read s0.program_counter).bind fun code =>
    let s : CPU := { s0 with program_counter := s0.program_counter + 1 }
    let program_counter_state := s.program_counter
    (OPCODES_MAP code).bind fun opcode =>
      if code = 0x00 then some (StepResult.halt s)
      else
        (execArm s code opcode.mode).map fun s2 =>
          StepResult.next <|
            if program_counter_state = s2.program_counter then
              { s2 with program_counter := (s2.program_counter + (opcode.len - 1)) % 65536 }
            else s2

/-- `reset`: zero A/X/Y, `P = from_bits_truncate(0b100100)`,
`PC = mem_read_u16(0xFFFC)`, `S = STACK_RESET`.  (The vector reads at
`0xFFFC`/`0xFFFD` are within the array, so `reset` never panics.) -/
def CPU.reset (s : CPU) : Option CPU :=
  (s.mem_read_u16 0xFFFC).map fun pc =>
    { s with register_a := 0, register_x := 0, register_y := 0,
             status := CPUFlags.fromBits 0b100100,
             program_counter := pc,
             stack_pointer := STACK_RESET }

/-- Writing a list of bytes into consecutive cells of the memory function
(the effect of `copy_from_slice` on the in-range slice). -/
def setRange (mem : Nat → Nat) (start : Nat) (program : List Nat) : Nat → Nat :=
  match program with
  | [] => mem
  | b :: rest => setRange (fun a => if a = start then b else mem a) (start + 1) rest

/-- `load(program)`:
`self.memory[0x0600..(0x0600 + program.len())].copy_from_slice(&program)`
— which panics (`none`) unless `0x0600 + program.len()` is at most the
array length `MEMSIZE` — followed by `mem_write_u16(0xFFFC, 0x0600)`. -/
def CPU.load (s : CPU) (program : List Nat) : Option CPU :=
  if 0x0600 + program.length ≤ MEMSIZE then
    ({ s with memory := setRange s.memory 0x0600 program } : CPU).mem_write_u16 0xFFFC 0x0600
  else none

/-! ## Concrete states used in witnesses and counterexamples -/

/-- A state whose memory holds distinct bytes at the JMP-indirect pointer
`0x02FF`, at `0x0200` (where the 6502 page-boundary bug reads the high
byte), and at `0x00FF` (where this code actually reads it). -/
def cpuC1 : CPU :=
  { CPU.new with memory := fun a =>
      if a = 0x02FF then 0x34 else if a = 0x0200 then 0x12
      else if a = 0x00FF then 0x99 else 0 }

/-! ## Claims -/

/-- **C1.** The claim says JMP indirect with `p & $00FF == $00FF` reads the
target's high byte from `p & $FF00`.  The code instead reads it from
`mem_address & 0x00FF` (i.e. the constant address `$00FF`): at `p = $02FF`
with `mem[$02FF] = $34`, `mem[$0200] = $12`, `mem[$00FF] = $99`, the
computed target is `$9934`, whereas the claimed 6502-bug semantics gives
`$1234`. -/
theorem jmp_indirect_reads_hi_from_00FF :
    cpuC1.jmp_indirect_target 0x02FF = some 0x9934 ∧
    Nat.lor (Nat.shiftLeft (cpuC1.memory (Nat.land 0x02FF 0xFF00)) 8) (cpuC1.memory 0x02FF)
      = 0x1234 ∧
    (0x9934 : Nat) ≠ 0x1234 := by
  refine ⟨by decide, by decide, by decide⟩

/-- **C2.** The claim says `mem_read_u16` never fails and the single-byte
read is defined on all 65,536 addresses including `$FFFF`.  The memory
array is `[u8; 0xFFFF]` — 65,535 bytes — so `mem_read(0xFFFF)` is an
out-of-bounds index (a panic) and `mem_read_u16(0xFFFE)`, whose high read
touches `$FFFF`, fails with it; on addresses whose two cells are in bounds
the little-endian composition does hold. -/
theorem mem_read_u16_not_total :
    ∀ s : CPU, s.mem_read 0xFFFF = none ∧ s.mem_read_u16 0xFFFE = none ∧
      ∀ p, p + 1 < MEMSIZE →
        s.mem_read_u16 p = some (Nat.lor (Nat.shiftLeft (s.memory (p + 1)) 8) (s.memory p)) := by
  intro s
  refine ⟨by simp [CPU.mem_read, MEMSIZE], by simp [CPU.mem_read_u16, CPU.mem_read, MEMSIZE], ?_⟩
  intro p hp
  have hp0 : p < MEMSIZE := by omega
  simp [CPU.mem_read_u16, CPU.mem_read, hp, hp0]

/-- Witness for the universally quantified in-bounds part of
`mem_read_u16_not_total`, at `p = 0x10` on the zeroed machine. -/
theorem mem_read_u16_not_total_witness :
    (0x10 + 1 < MEMSIZE) ∧ CPU.new.mem_read_u16 0x10 = some 0 :=
  ⟨by decide, by
    have h := (mem_read_u16_not_total CPU.new).2.2 0x10 (by decide)
    simpa using h⟩

/-- **C4.** The claim says any image of length up to `0x10000 − 0x0600 =
0xFA00` loads successfully.  `load` slices `memory[0x0600 .. 0x0600+len]`
of the 65,535-byte array, so an image of length `0xFA00` (slice end
`0x10000 > 0xFFFF`) panics; `0xF9FF` is the real maximum. -/
theorem load_panics_at_claimed_max_length :
    CPU.new.load (List.replicate 0xFA00 0) = none ∧
    (CPU.new.load (List.replicate 0xF9FF 0)).isSome = true := by
  constructor
  · unfold CPU.load
    rw [List.length_replicate]
    norm_num [MEMSIZE]
  · unfold CPU.load
    rw [List.length_replicate]
    rw [if_pos (by norm_num [MEMSIZE])]
    rfl

/-- **C10.** `reset` never fails, leaves every byte of memory unchanged,
zeroes A/X/Y, sets P to `0b00100100` and S to `$FD`, and loads PC from the
little-endian word at `$FFFC`/`$FFFD`. -/
theorem reset_mutates_only_registers (s : CPU) :
    s.reset = some ({ s with
      register_a := 0, register_x := 0, register_y := 0,
      status := CPUFlags.fromBits 0b100100,
      program_counter := Nat.lor (Nat.shiftLeft (s.memory 0xFFFD) 8) (s.memory 0xFFFC),
      stack_pointer := STACK_RESET }) := by
  rfl

/-- **C9.** When the loop fetches opcode `$00` (BRK), it returns
immediately: the final state is the fetch-time state with PC advanced past
the opcode byte and nothing else — A, X, Y, P, S and every byte of memory —
changed.  (The hypotheses say exactly that the fetch succeeds and yields
`$00`.) -/
theorem brk_step_halts_unchanged (s : CPU)
    (h1 : s.program_counter < MEMSIZE)
    (h2 : s.memory s.program_counter = 0) :
    s.step = some (StepResult.halt { s with program_counter := s.program_counter + 1 }) := by
  unfold CPU.step
  rw [show s.mem_read s.program_counter = some 0 by simp [CPU.mem_read, h1, h2]]
  rfl

/-- `brk_step_halts_unchanged` at a concrete state: BRK byte at `$0600` in
an otherwise zeroed machine. -/
theorem brk_step_halts_unchanged_witness :
    ({ CPU.new with program_counter := 0x0600 } : CPU).step
      = some (StepResult.halt { CPU.new with program_counter := 0x0601 }) :=
  brk_step_halts_unchanged { CPU.new with program_counter := 0x0600 }
    (by decide) (by decide)

/-- Register-A value produced by `add_to_register_a`. -/
lemma add_to_register_a_a (s : CPU) (data : Nat) :
    (s.add_to_register_a data).register_a
      = (s.register_a + data + (if s.status.carry then 1 else 0)) % 256 := by
  simp only [CPU.add_to_register_a, CPU.set_register_a,
    CPU.update_zero_and_negative_flags, CPU.sec, CPU.clc, CPU.clv]
  split_ifs <;> rfl

/-- Carry flag produced by `add_to_register_a`. -/
lemma add_to_register_a_carry (s : CPU) (data : Nat) :
    (s.add_to_register_a data).status.carry
      = decide (s.register_a + data + (if s.status.carry then 1 else 0) > 0xff) := by
  simp only [CPU.add_to_register_a, CPU.set_register_a,
    CPU.update_zero_and_negative_flags, CPU.sec, CPU.clc, CPU.clv]
  split_ifs <;> simp_all

/-- **C5.** `add_to_register_a` (the core of ADC) satisfies the exact
unsigned identity `old_A + m + old_C = new_A + (new_C ? 256 : 0)`. -/
theorem adc_unsigned_identity (s : CPU) (data : Nat)
    (ha : s.register_a < 256) (hd : data < 256) :
    s.register_a + data + (if s.status.carry then 1 else 0)
      = (s.add_to_register_a data).register_a
        + (if (s.add_to_register_a data).status.carry then 256 else 0) := by
  rw [add_to_register_a_a, add_to_register_a_carry]
  cases hc : s.status.carry <;> simp [hc] <;> split_ifs <;> omega

/-- A state with A = 200 and the carry flag set, for the C5 witness. -/
def cpuC5 : CPU :=
  { CPU.new with
    register_a := 200
    status := { CPU.new.status with carry := true } }

/-- `adc_unsigned_identity` at A = 200, m = 100, C = 1. -/
theorem adc_unsigned_identity_witness :
    cpuC5.register_a < 256 ∧ (100 : Nat) < 256 ∧
    cpuC5.register_a + 100 + (if cpuC5.status.carry then 1 else 0)
      = (cpuC5.add_to_register_a 100).register_a
        + (if (cpuC5.add_to_register_a 100).status.carry then 256 else 0) :=
  ⟨by decide, by decide, adc_unsigned_identity cpuC5 100 (by decide) (by decide)⟩

lemma update_znf_carry (s : CPU) (r : Nat) :
    (s.update_zero_and_negative_flags r).status.carry = s.status.carry := by
  simp only [CPU.update_zero_and_negative_flags]
  split_ifs <;> rfl

lemma update_znf_interruptDisable (s : CPU) (r : Nat) :
    (s.update_zero_and_negative_flags r).status.interruptDisable
      = s.status.interruptDisable := by
  simp only [CPU.update_zero_and_negative_flags]
  split_ifs <;> rfl

lemma update_znf_decimalMode (s : CPU) (r : Nat) :
    (s.update_zero_and_negative_flags r).status.decimalMode = s.status.decimalMode := by
  simp only [CPU.update_zero_and_negative_flags]
  split_ifs <;> rfl

lemma update_znf_brk (s : CPU) (r : Nat) :
    (s.update_zero_and_negative_flags r).status.brk = s.status.brk := by
  simp only [CPU.update_zero_and_negative_flags]
  split_ifs <;> rfl

lemma update_znf_brk2 (s : CPU) (r : Nat) :
    (s.update_zero_and_negative_flags r).status.brk2 = s.status.brk2 := by
  simp only [CPU.update_zero_and_negative_flags]
  split_ifs <;> rfl

lemma update_znf_overflow (s : CPU) (r : Nat) :
    (s.update_zero_and_negative_flags r).status.overflow = s.status.overflow := by
  simp only [CPU.update_zero_and_negative_flags]
  split_ifs <;> rfl

lemma update_znf_zero (s : CPU) (r : Nat) :
    (s.update_zero_and_negative_flags r).status.zero = decide (r = 0) := by
  simp only [CPU.update_zero_and_negative_flags]
  split_ifs <;> simp_all

lemma update_znf_negative (s : CPU) (r : Nat) :
    (s.update_zero_and_negative_flags r).status.negative
      = decide (Nat.land r 128 ≠ 0) := by
  simp only [CPU.update_zero_and_negative_flags]
  split_ifs <;> simp_all

set_option maxRecDepth 8000 in
/-- For a byte, testing `& 128` against zero is exactly reading bit 7. -/
lemma land_128_eq_testBit : ∀ r, r < 256 → (decide (Nat.land r 128 ≠ 0) = r.testBit 7) := by
  decide

/-- **C7.** After `compare(mode, reg)` (shared by CMP/CPX/CPY) reads the
operand byte `m`: C is set iff `m ≤ reg`, Z iff `reg = m`, N is bit 7 of
`(reg - m) mod 256` (written `(reg + 256 - m) % 256`), and the remaining
status bits I, D, B, U, V are unchanged. -/
theorem compare_sets_flags (s : CPU) (mode : AddressingMode)
    (compare_with addr data : Nat) (s' : CPU)
    (haddr : s.get_operand_address mode = some addr)
    (hdata : s.mem_read addr = some data)
    (hcw : compare_with < 256) (hd : data < 256)
    (hrun : s.compare mode compare_with = some s') :
    s'.status.carry = decide (data ≤ compare_with)
    ∧ s'.status.zero = decide (compare_with = data)
    ∧ s'.status.negative = ((compare_with + 256 - data) % 256).testBit 7
    ∧ s'.status.interruptDisable = s.status.interruptDisable
    ∧ s'.status.decimalMode = s.status.decimalMode
    ∧ s'.status.brk = s.status.brk
    ∧ s'.status.brk2 = s.status.brk2
    ∧ s'.status.overflow = s.status.overflow := by
  unfold CPU.compare at hrun
  rw [haddr] at hrun
  simp only [Option.bind_eq_bind', Option.some_bind, hdata, Option.pure_def,
    Option.some.injEq] at hrun
  subst hrun
  rw [Nat.mod_eq_of_lt hd]
  have hr : (compare_with + 256 - data) % 256 < 256 := Nat.mod_lt _ (by norm_num)
  refine ⟨?_, ?_, ?_, ?_, ?_, ?_, ?_, ?_⟩
  · rw [update_znf_carry]
    split_ifs with h <;> simp [CPU.sec, CPU.clc, h]
  · rw [update_znf_zero]
    refine decide_eq_decide.mpr ?_
    omega
  · rw [update_znf_negative, land_128_eq_testBit _ hr]
  · split_ifs <;> simp [update_znf_interruptDisable, CPU.sec, CPU.clc]
  · split_ifs <;> simp [update_znf_decimalMode, CPU.sec, CPU.clc]
  · split_ifs <;> simp [update_znf_brk, CPU.sec, CPU.clc]
  · split_ifs <;> simp [update_znf_brk2, CPU.sec, CPU.clc]
  · split_ifs <;> simp [update_znf_overflow, CPU.sec, CPU.clc]


/-- Concrete state for the C7 witness: operand byte 7 at `$0010`, PC at
`$0010` (Immediate addressing reads the byte at PC). -/
def cpuC7 : CPU :=
  { CPU.new with
    program_counter := 0x10
    memory := fun a => if a = 0x10 then 7 else 0 }

/-- The state `compare` produces from `cpuC7` with register value 9. -/
def cpuC7res : CPU := (cpuC7.compare AddressingMode.Immediate 9).getD CPU.new

/-- `compare_sets_flags` at reg = 9, m = 7 via Immediate addressing. -/
theorem compare_sets_flags_witness :
    cpuC7.compare AddressingMode.Immediate 9 = some cpuC7res
    ∧ (cpuC7res.status.carry = decide ((7 : Nat) ≤ 9)
       ∧ cpuC7res.status.zero = decide ((9 : Nat) = 7)
       ∧ cpuC7res.status.negative = (((9 : Nat) + 256 - 7) % 256).testBit 7
       ∧ cpuC7res.status.interruptDisable = cpuC7.status.interruptDisable
       ∧ cpuC7res.status.decimalMode = cpuC7.status.decimalMode
       ∧ cpuC7res.status.brk = cpuC7.status.brk
       ∧ cpuC7res.status.brk2 = cpuC7.status.brk2
       ∧ cpuC7res.status.overflow = cpuC7.status.overflow) :=
  ⟨rfl, compare_sets_flags cpuC7 AddressingMode.Immediate 9 0x10 7 cpuC7res
    rfl rfl (by decide) (by decide) rfl⟩

/-- A state with A = 255 and the carry flag already set, on which the
ADC-then-SBC round trip fails. -/
def cpuC6 : CPU :=
  { CPU.new with
    register_a := 255
    status := { CPU.new.status with carry := true } }

/-- **C6 counterexample.** With A = 255, C = 1, m = 255: ADC leaves the
carry set (so the carry *is* set immediately before the SBC, with or
without an interposed SEC), yet SBC with the same m yields A = 0, not the
original 255.  The round trip as claimed fails whenever the carry was set
before the ADC. -/
theorem adc_sbc_not_roundtrip :
    cpuC6.register_a = 255
    ∧ (cpuC6.add_to_register_a 255).status.carry = true
    ∧ ((cpuC6.add_to_register_a 255).sbc_data 255).register_a = 0
    ∧ (((cpuC6.add_to_register_a 255).sec).sbc_data 255).register_a = 0
    ∧ (0 : Nat) ≠ 255 := by
  refine ⟨by decide, by decide, by decide, by decide, by decide⟩

/-- **C6 (amended).** ADC with operand m followed by SBC with the same m
(`sbc_data`, the post-fetch core of SBC) restores A, provided the carry is
clear immediately before the ADC and set immediately before the SBC (the
interposed `sec` — the SEC instruction — is exactly the latter). -/
theorem adc_sec_sbc_roundtrip (s : CPU) (data : Nat)
    (ha : s.register_a < 256) (hd : data < 256) (hc : s.status.carry = false) :
    (((s.add_to_register_a data).sec).sbc_data data).register_a = s.register_a := by
  unfold CPU.sbc_data
  rw [add_to_register_a_a]
  simp only [CPU.sec]
  rw [add_to_register_a_a]
  simp only [hc]
  unfold sbc_operand
  simp only [Bool.false_eq_true, if_false, if_true]
  omega

/-- A state with A = `$77` and the carry clear, for the C6 witness. -/
def cpuC6w : CPU := { CPU.new with register_a := 0x77 }

/-- `adc_sec_sbc_roundtrip` at A = `$77`, m = `$23`. -/
theorem adc_sec_sbc_roundtrip_witness :
    cpuC6w.register_a < 256 ∧ (0x23 : Nat) < 256 ∧ cpuC6w.status.carry = false
    ∧ (((cpuC6w.add_to_register_a 0x23).sec).sbc_data 0x23).register_a
        = cpuC6w.register_a :=
  ⟨by decide, by decide, by decide,
   adc_sec_sbc_roundtrip cpuC6w 0x23 (by decide) (by decide) (by decide)⟩

/-- Inserting BREAK and BREAK2 into a flags clone is, at the `u8` level,
OR-ing the live `bits()` with `0x30`. -/
lemma flags_bits_insert_brk_brk2 (p : CPUFlags) :
    ({ p with brk := true, brk2 := true } : CPUFlags).bits = Nat.lor p.bits 0x30 := by
  rcases p with ⟨c, z, i, d, b, u, v, n⟩
  cases c <;> cases z <;> cases i <;> cases d <;> cases b <;> cases u <;>
    cases v <;> cases n <;> rfl

/-- **C8.** `php` writes the byte `P.bits() | 0x30` (B and U forced set in
the pushed copy) at the stack top `$0100 + S`, decrements S, and changes
nothing else — in particular the live status register is untouched. -/
theorem php_pushes_b_u_set (s : CPU) (hsp : s.stack_pointer < 256) :
    s.php = some ({ s with
      memory := fun a =>
        if a = STACK + s.stack_pointer then Nat.lor s.status.bits 0x30 else s.memory a
      stack_pointer := (s.stack_pointer + 255) % 256 }) := by
  simp only [CPU.php, CPU.stack_push, CPU.mem_write]
  rw [if_pos (show STACK + s.stack_pointer < MEMSIZE by
        simp only [STACK, MEMSIZE]; omega)]
  rw [flags_bits_insert_brk_brk2]
  rfl

/-- A state with live P = `0b11000011` (B and U clear) and S = `$FD`, for
the C8 witness. -/
def cpuC8 : CPU := { CPU.new with status := CPUFlags.fromBits 0b11000011 }

/-- `php_pushes_b_u_set` on `cpuC8`. -/
theorem php_pushes_b_u_set_witness :
    cpuC8.stack_pointer < 256
    ∧ cpuC8.php = some ({ cpuC8 with
        memory := fun a =>
          if a = STACK + cpuC8.stack_pointer then Nat.lor cpuC8.status.bits 0x30
          else cpuC8.memory a
        stack_pointer := (cpuC8.stack_pointer + 255) % 256 }) :=
  ⟨by decide, php_pushes_b_u_set cpuC8 (by decide)⟩

/-- A state about to execute `JMP $0601` stored at `$0600` — an absolute
jump whose target happens to equal the post-fetch PC. -/
def cpuC3 : CPU :=
  { CPU.new with
    program_counter := 0x0600
    memory := fun a =>
      if a = 0x0600 then 0x4C else if a = 0x0601 then 0x01
      else if a = 0x0602 then 0x06 else 0 }

/-- **C3 counterexample.** The executor decides "the instruction mutated PC"
by comparing values, not by instruction kind.  For `JMP $0601` at `$0600`
the handler sets PC to its target `$0601`, which equals the post-fetch PC,
so the `len - 1` adjustment fires anyway and the next fetch happens at
`$0603` — not at the computed target `$0601` as the claim requires for all
memory contents. -/
theorem jmp_selftarget_gets_adjusted :
    execArm { cpuC3 with program_counter := 0x0601 } 0x4C AddressingMode.NoneAddressing
      = some ({ cpuC3 with program_counter := 0x0601 })
    ∧ cpuC3.step = some (StepResult.next ({ cpuC3 with program_counter := 0x0603 }))
    ∧ (0x0603 : Nat) ≠ 0x0601 := by
  refine ⟨rfl, rfl, by decide⟩

/-- **C3 (amended).** For a step executing one of the PC-mutating opcodes —
JMP absolute/indirect, JSR, RTS, RTI, or any of the eight conditional
branches — whose handler succeeds and computes a new state `s2`, the
`len - 1` adjustment is skipped and the next fetch happens exactly at the
PC the instruction computed, PROVIDED that computed PC differs from the
post-fetch PC `pc_before` (a not-taken branch leaves PC at `pc_before`, and
a jump targeting `pc_before` is indistinguishable from that, so both get
the adjustment). -/
theorem step_pc_mutating_exact (s0 : CPU) (code : Nat) (opcode : OpCode) (s2 : CPU)
    (hfetch : s0.mem_read s0.program_counter = some code)
    (hop : OPCODES_MAP code = some opcode)
    (hcode : code = 0x4C ∨ code = 0x6C ∨ code = 0x20 ∨ code = 0x60 ∨ code = 0x40
      ∨ code = 0x10 ∨ code = 0x30 ∨ code = 0x50 ∨ code = 0x70
      ∨ code = 0x90 ∨ code = 0xB0 ∨ code = 0xD0 ∨ code = 0xF0)
    (hexec : execArm { s0 with program_counter := s0.program_counter + 1 } code opcode.mode
        = some s2)
    (hpc : s2.program_counter ≠ s0.program_counter + 1) :
    s0.step = some (StepResult.next s2) := by
  have hne : code ≠ 0 := by
    rcases hcode with h|h|h|h|h|h|h|h|h|h|h|h|h <;> omega
  unfold CPU.step
  rw [hfetch, Option.some_bind, hop, Option.some_bind]
  dsimp only
  rw [if_neg hne, hexec]
  simp only [Option.map_some']
  rw [if_neg (Ne.symm hpc)]

/-- A state about to execute `JMP $1234` stored at `$0600`. -/
def cpuC3w : CPU :=
  { CPU.new with
    program_counter := 0x0600
    memory := fun a =>
      if a = 0x0600 then 0x4C else if a = 0x0601 then 0x34
      else if a = 0x0602 then 0x12 else 0 }

/-- `step_pc_mutating_exact` on `JMP $1234` at `$0600`: the next fetch is
exactly at the computed target `$1234`. -/
theorem step_pc_mutating_exact_witness :
    cpuC3w.step = some (StepResult.next ({ cpuC3w with program_counter := 0x1234 })) :=
  step_pc_mutating_exact cpuC3w 0x4C
    (OpCode.mk 0x4c "JMP" 3 3 AddressingMode.NoneAddressing)
    ({ cpuC3w with program_counter := 0x1234 })
    rfl rfl (Or.inl rfl) rfl (by decide)

end NES6502

